import Mathlib

/-!
Shallow embedding of the job-orchestration and media-cache subsystem of
`src/main.py` (Reverbed API).

Python dicts are modelled as insertion-ordered association lists with
string keys (the order matters because `cleanup_cache` uses Python's
stable `sorted` on `dict.items()`).  Timestamps are natural numbers,
progress fractions are rationals, and every external effect (subprocess
exit codes, `os.path.exists`, exceptions raised by the `reverbed`
adapters, `shutil.copy`, ...) is an explicit field of an environment
record, so each task body is a pure function of its environment.
-/

/-- Python `d[k]` / `k in d` for a dict modelled as an ordered assoc list. -/
def dictGet {α : Type} : List (String × α) → String → Option α
  | [], _ => none
  | (k', v) :: rest, k => if k' = k then some v else dictGet rest k

/-- Python `d[k] = v`: overwrite in place if the key exists, else append
(dicts preserve insertion order). -/
def dictSet {α : Type} : List (String × α) → String → α → List (String × α)
  | [], k, v => [(k, v)]
  | (k', v') :: rest, k, v =>
    if k' = k then (k', v) :: rest else (k', v') :: dictSet rest k v

/-- Python `del d[k]` (no-op when the key is absent; `main.py` only deletes
keys it has just looked up). -/
def dictErase {α : Type} : List (String × α) → String → List (String × α)
  | [], _ => []
  | (k', v') :: rest, k => if k' = k then rest else (k', v') :: dictErase rest k

/-- The keys of a dict, in insertion order. -/
def dictKeys {α : Type} (l : List (String × α)) : List String :=
  l.map Prod.fst

/-- One value of `youtube_cache`: `{"audio_file": ..., "last_used": ...}`
(`main.py` line 111). -/
structure CacheEntry where
  audio_file : String
  last_used : Nat
deriving DecidableEq

/-- The global `youtube_cache` dict (`main.py` line 112). -/
abbrev CacheStore : Type := List (String × CacheEntry)

/-- `MAX_CACHE_SIZE` (`main.py` line 115). -/
def MAX_CACHE_SIZE : Nat := 50

/-- `CACHE_EXPIRATION` in seconds (`main.py` line 118). -/
def CACHE_EXPIRATION : Nat := 24 * 60 * 60

/-- The expiry test of `cleanup_cache` line 129:
`current_time - info["last_used"] > CACHE_EXPIRATION`, written without
truncated subtraction. -/
def isExpired (now : Nat) (e : CacheEntry) : Bool :=
  decide (CACHE_EXPIRATION + e.last_used < now)

/-- Comparison key of the `sorted(...)` call in `cleanup_cache` line 139:
ascending `last_used`. -/
def byLastUsed (a b : String × CacheEntry) : Prop :=
  a.2.last_used ≤ b.2.last_used

instance : DecidableRel byLastUsed := fun a b =>
  inferInstanceAs (Decidable (a.2.last_used ≤ b.2.last_used))

/-- `cleanup_cache` (`main.py` lines 120-149): return unchanged when the
entry count is within `MAX_CACHE_SIZE`; otherwise delete every expired
entry, and if the count still exceeds the bound, delete the keys of the
first `len - MAX_CACHE_SIZE` items of the cache sorted ascending by
`last_used` (Python's `sorted` is stable, as is `List.insertionSort`). -/
def cleanup_cache (now : Nat) (c : CacheStore) : CacheStore :=
  if c.length ≤ MAX_CACHE_SIZE then c
  else
    let c1 := c.filter (fun p => !isExpired now p.2)
    if c1.length ≤ MAX_CACHE_SIZE then c1
    else
      let to_remove := c1.length - MAX_CACHE_SIZE
      let sorted := List.insertionSort byLastUsed c1
      let doomed := (sorted.take to_remove).map Prod.fst
      c1.filter (fun p => !doomed.contains p.1)

/-- The cache-consultation block of `process_preview_task`
(`main.py` lines 602-617): on a key hit whose file still exists, return
the cached path and refresh `last_used`; on a dangling file, delete the
entry and report a miss; otherwise a plain miss. -/
def cache_lookup (now : Nat) (file_exists : String → Bool) (url : String)
    (c : CacheStore) : Option String × CacheStore :=
  match dictGet c url with
  | some info =>
    if file_exists info.audio_file then
      (some info.audio_file, dictSet c url { info with last_used := now })
    else
      (none, dictErase c url)
  | none => (none, c)

/-- The cache-insertion step of `process_preview_task`
(`main.py` lines 654-662): store the entry with `last_used = now`, then
run `cleanup_cache`. -/
def cache_insert (now : Nat) (url file : String) (c : CacheStore) : CacheStore :=
  cleanup_cache now (dictSet c url { audio_file := file, last_used := now })

/-- One value of the global `jobs` dict (`main.py` lines 199-204, 548-554).
The `/process` submission omits the `used_cache` key; since every read goes
through `job.get("used_cache", False)` (lines 421, 470), the absent key is
modelled as the value `false`. -/
structure JobRecord where
  status : String
  progress : ℚ
  result_file : Option String
  error : Option String
  used_cache : Bool
deriving DecidableEq

/-- Python truthiness of an `Optional[str]`, as used by
`if loop_video and start_time and end_time:` (`main.py` line 327). -/
def truthy : Option String → Bool
  | none => false
  | some s => !s.isEmpty

/-- External outcomes consumed by `process_video_task`: each field is the
result of one effectful call in `main.py` lines 237-394.  `Option String`
fields are `some msg` when that call raises (or, for `primary_ok`, the
subprocess exit status). -/
structure ProcessEnv where
  workspace_err : Option String
  primary_ok : Bool
  fallback_err : Option String
  audio_exists : Bool
  wav_files : List String
  transform_err : Option String
  video_err : Option String
  combine_err : Option String
  combined_exists : Bool
  combined_mp4_exists : Bool
  matching_files : List String
  copy_err : Option String

/-- The audio filename chosen at `main.py` line 265. -/
def process_audio_filename (job_id : String) : String :=
  "audio_" ++ job_id ++ ".wav"

/-- The audio-acquisition block of `process_video_task`
(`main.py` lines 256-300): run `yt-dlp`; on a nonzero exit status invoke
the `download_audio` fallback once; then verify the audio file exists,
falling back to any `.wav` file found in the job directory.  Returns the
number of fallback invocations and either the audio path or the message
of the exception raised inside the block. -/
def stage_acquire (env : ProcessEnv) (job_id : String) : Nat × Except String String :=
  let afterDl : Nat × Option String :=
    if env.primary_ok then (0, none) else (1, env.fallback_err)
  match afterDl with
  | (fb, some m) => (fb, Except.error m)
  | (fb, none) =>
    if env.audio_exists then (fb, Except.ok (process_audio_filename job_id))
    else
      match env.wav_files with
      | w :: _ => (fb, Except.ok w)
      | [] => (fb, Except.error "Audio file not found after download")

/-- The finalize block of `process_video_task` (`main.py` lines 320-394):
when `loop_video and start_time and end_time`, download the video and try
`combine_audio_video` (locating the produced file with or without an
`.mp4` extension, else any file starting with the job id); if the combine
block raises, fall back to copying the processed audio to `{job_id}.mp3`.
Otherwise just copy the processed audio.  Returns the video-download and
combine invocation counts and either the result file's basename or the
message raised out of the block. -/
def stage_finalize (env : ProcessEnv) (loop_video : Bool)
    (start_time end_time : Option String) (job_id : String) :
    Nat × Nat × Except String String :=
  if loop_video && truthy start_time && truthy end_time then
    match env.video_err with
    | some m => (1, 0, Except.error m)
    | none =>
      let combineRes : Except String String :=
        match env.combine_err with
        | some m => Except.error m
        | none =>
          if env.combined_exists then Except.ok job_id
          else if env.combined_mp4_exists then Except.ok (job_id ++ ".mp4")
          else
            match env.matching_files with
            | f :: _ => Except.ok f
            | [] => Except.error ("Failed to create output video file at " ++ job_id)
      match combineRes with
      | Except.ok name => (1, 1, Except.ok name)
      | Except.error _ =>
        match env.copy_err with
        | some m => (1, 1, Except.error m)
        | none => (1, 1, Except.ok (job_id ++ ".mp3"))
  else
    match env.copy_err with
    | some m => (0, 0, Except.error m)
    | none => (0, 0, Except.ok (job_id ++ ".mp3"))

/-- Outcome of one `process_video_task` run: the final job record, the
ordered list of every value assigned to `jobs[job_id]["progress"]`
(including the `0.0` written at submission), and invocation counters for
the fallback download, `download_video` and `combine_audio_video`. -/
structure ProcOut where
  job : JobRecord
  trace : List ℚ
  fallback_calls : Nat
  videodl_calls : Nat
  combine_calls : Nat
deriving DecidableEq

/-- The outermost `except` handler of both tasks (`main.py` lines 403-407,
702-706): set `status = "failed"` and the error message, leaving
`progress` and the other fields untouched. -/
def failJob (j : JobRecord) (m : String) : JobRecord :=
  { j with status := "failed", error := some m }

/-- The in-flight record after `main.py` lines 239-240 / 581-582:
`status = "processing"`, `progress = 0.1`. -/
def processingJob : JobRecord :=
  { status := "processing", progress := mkRat 1 10, result_file := none,
    error := none, used_cache := false }

/-- `process_video_task` (`main.py` lines 224-407), as a function of its
environment.  Each inner `except` handler re-raises with the prefix used
in the source; the outermost handler records `failed` and the message
without touching `progress`. -/
def process_video_task (env : ProcessEnv) (start_time end_time : Option String)
    (loop_video : Bool) (job_id : String) : ProcOut :=
  let tr0 : List ℚ := [0, mkRat 1 10]
  match env.workspace_err with
  | some m =>
    { job := failJob processingJob ("Cannot create or write to job directory: " ++ m),
      trace := tr0, fallback_calls := 0, videodl_calls := 0, combine_calls := 0 }
  | none =>
    match stage_acquire env job_id with
    | (fb, Except.error m) =>
      { job := failJob processingJob ("Error downloading audio: " ++ m),
        trace := tr0, fallback_calls := fb, videodl_calls := 0, combine_calls := 0 }
    | (fb, Except.ok _) =>
      let j1 := { processingJob with progress := mkRat 4 10 }
      let tr1 := tr0 ++ [mkRat 4 10]
      match env.transform_err with
      | some m =>
        { job := failJob j1 ("Error applying effects: " ++ m),
          trace := tr1, fallback_calls := fb, videodl_calls := 0, combine_calls := 0 }
      | none =>
        let j2 := { j1 with progress := mkRat 7 10 }
        let tr2 := tr1 ++ [mkRat 7 10]
        match stage_finalize env loop_video start_time end_time job_id with
        | (vd, cb, Except.error m) =>
          { job := failJob j2 ("Error in final processing: " ++ m),
            trace := tr2, fallback_calls := fb, videodl_calls := vd, combine_calls := cb }
        | (vd, cb, Except.ok name) =>
          { job := { j2 with status := "completed", progress := 1, result_file := some name },
            trace := tr2 ++ [1], fallback_calls := fb, videodl_calls := vd,
            combine_calls := cb }

/-- External outcomes consumed by `process_preview_task`
(`main.py` lines 570-706): `now` is `time.time()`, `file_exists` is
`os.path.exists` for the cached path check, `dl_err` is `some stderr`
when the `yt-dlp` preview download exits nonzero, and the remaining
fields mirror `ProcessEnv`. -/
structure PreviewEnv where
  workspace_err : Option String
  now : Nat
  file_exists : String → Bool
  dl_err : Option String
  audio_exists : Bool
  wav_files : List String
  transform_err : Option String
  copy_err : Option String

/-- The audio filename chosen at `main.py` line 623. -/
def preview_audio_filename (job_id : String) : String :=
  "preview_audio_" ++ job_id ++ ".wav"

/-- Outcome of one `process_preview_task` run: final job record, ordered
progress writes (with the submission-time `0.0`), the resulting
`youtube_cache`, and counters for fetch attempts and fallback fetch
attempts (the preview download block contains no fallback call). -/
structure PrevOut where
  job : JobRecord
  trace : List ℚ
  cache : CacheStore
  fetch_calls : Nat
  fallback_calls : Nat
deriving DecidableEq

/-- The tail of `process_preview_task` after an audio file is available
(`main.py` lines 669-706): apply effects (fatal on error), copy to the
output directory (fatal on error), then mark the job completed with
progress `1.0` and result `preview_{job_id}.mp3`. -/
def preview_publish (env : PreviewEnv) (job_id : String) (c : CacheStore)
    (j : JobRecord) (tr : List ℚ) (fetches : Nat) : PrevOut :=
  match env.transform_err with
  | some m =>
    { job := failJob j ("Error applying effects to preview: " ++ m),
      trace := tr, cache := c, fetch_calls := fetches, fallback_calls := 0 }
  | none =>
    let j1 := { j with progress := mkRat 8 10 }
    let tr1 := tr ++ [mkRat 8 10]
    match env.copy_err with
    | some m =>
      { job := failJob j1 ("Error in final preview processing: " ++ m),
        trace := tr1, cache := c, fetch_calls := fetches, fallback_calls := 0 }
    | none =>
      let name := "preview_" ++ job_id ++ ".mp3"
      let j2 := { j1 with status := "completed", progress := (1 : ℚ), result_file := some name }
      { job := j2, trace := tr1 ++ [1], cache := c, fetch_calls := fetches,
        fallback_calls := 0 }

/-- `process_preview_task` (`main.py` lines 570-706) as a function of its
environment and the current `youtube_cache`.  On a cache hit the fetch is
skipped, `used_cache` is set and progress jumps to `0.4`; on a miss a
single `yt-dlp` invocation is made — a nonzero exit raises immediately
(line 642, no fallback), its message passing through two
`Error downloading preview audio:` prefixes (lines 642 and 667); a
verified download is inserted into the cache and `cleanup_cache` runs. -/
def process_preview_task (env : PreviewEnv) (url : String) (job_id : String)
    (cache : CacheStore) : PrevOut :=
  let tr0 : List ℚ := [0, mkRat 1 10]
  match env.workspace_err with
  | some m =>
    { job := failJob processingJob ("Cannot create or write to job directory: " ++ m),
      trace := tr0, cache := cache, fetch_calls := 0, fallback_calls := 0 }
  | none =>
    match cache_lookup env.now env.file_exists url cache with
    | (some _, c1) =>
      let j1 := { processingJob with progress := mkRat 4 10, used_cache := true }
      preview_publish env job_id c1 j1 (tr0 ++ [mkRat 4 10]) 0
    | (none, c1) =>
      match env.dl_err with
      | some stderr =>
        { job := failJob processingJob
            ("Error downloading preview audio: Error downloading preview audio: " ++ stderr),
          trace := tr0, cache := c1, fetch_calls := 1, fallback_calls := 0 }
      | none =>
        let found : Except String String :=
          if env.audio_exists then Except.ok (preview_audio_filename job_id)
          else
            match env.wav_files with
            | w :: _ => Except.ok w
            | [] => Except.error "Preview audio file not found after download"
        match found with
        | Except.error m =>
          { job := failJob processingJob ("Error downloading preview audio: " ++ m),
            trace := tr0, cache := c1, fetch_calls := 1, fallback_calls := 0 }
        | Except.ok afile =>
          let c2 := cache_insert env.now url afile c1
          let j1 := { processingJob with progress := mkRat 5 10 }
          preview_publish env job_id c2 j1 (tr0 ++ [mkRat 5 10]) 1

/-- An `HTTPException` as raised by the route handlers. -/
structure HttpError where
  status_code : Nat
  detail : String
deriving DecidableEq

/-- The freshly submitted job record written by both `/process`
(`main.py` lines 199-204) and `/preview` (lines 548-554):
`queued`, progress `0.0`. -/
def initial_job : JobRecord :=
  { status := "queued", progress := 0, result_file := none, error := none,
    used_cache := false }

/-- The registry mutation of the `/process` route `process_video`
(`main.py` lines 194-222): insert the queued record under the fresh id. -/
def process_video (jobs : List (String × JobRecord)) (job_id : String) :
    List (String × JobRecord) :=
  dictSet jobs job_id initial_job

/-- The registry mutation of the `/preview` route `preview_audio`
(`main.py` lines 539-568): insert the queued record under the fresh id. -/
def preview_audio (jobs : List (String × JobRecord)) (job_id : String) :
    List (String × JobRecord) :=
  dictSet jobs job_id initial_job

/-- `get_job_status` (`main.py` lines 409-422): 404 for an unknown id,
otherwise the job's current record. -/
def get_job_status (jobs : List (String × JobRecord)) (job_id : String) :
    Except HttpError JobRecord :=
  match dictGet jobs job_id with
  | none => Except.error { status_code := 404, detail := "Job not found" }
  | some job => Except.ok job

/-- `download_result` (`main.py` lines 424-459): 404 for an unknown id,
400 when the job is not completed, 404 when `result_file` is falsy or the
file is missing on disk, else serve the file. -/
def download_result (jobs : List (String × JobRecord)) (job_id : String)
    (output_exists : String → Bool) : Except HttpError String :=
  match dictGet jobs job_id with
  | none => Except.error { status_code := 404, detail := "Job not found" }
  | some job =>
    if job.status ≠ "completed" then
      Except.error { status_code := 400, detail := "Job not completed" }
    else
      match job.result_file with
      | none => Except.error { status_code := 404, detail := "Result file not found" }
      | some f =>
        if f.isEmpty then
          Except.error { status_code := 404, detail := "Result file not found" }
        else if output_exists f then Except.ok f
        else Except.error { status_code := 404, detail := "File not found: " ++ f }

/-- The two shared mutable maps of `main.py`: `jobs` (line 108) and
`youtube_cache` (line 112). -/
structure SysState where
  jobs : List (String × JobRecord)
  cache : CacheStore

/-- Every operation of `main.py` that can touch the shared maps: the two
submissions, the two background tasks (whose accumulated effect on the
maps is recorded when they finish), and the read-only queries. -/
inductive SysOp
  | submitProcess (job_id : String)
  | submitPreview (job_id : String)
  | runProcessTask (job_id : String) (env : ProcessEnv)
      (start_time end_time : Option String) (loop_video : Bool)
  | runPreviewTask (job_id : String) (env : PreviewEnv) (url : String)
  | statusQuery (job_id : String)
  | downloadQuery (job_id : String) (output_exists : String → Bool)
  | listJobsQuery
  | cacheStatusQuery

/-- Effect of each operation on the shared maps.  `process_video_task`
contains no reference to `youtube_cache`, so its step leaves the cache
component untouched; the queries (`/status`, `/download`, `/jobs`,
`/cache-status`) mutate neither map. -/
def sysStep (s : SysState) : SysOp → SysState
  | SysOp.submitProcess id => { s with jobs := process_video s.jobs id }
  | SysOp.submitPreview id => { s with jobs := preview_audio s.jobs id }
  | SysOp.runProcessTask id env st et lv =>
    { s with jobs := dictSet s.jobs id (process_video_task env st et lv id).job }
  | SysOp.runPreviewTask id env url =>
    let o := process_preview_task env url id s.cache
    { jobs := dictSet s.jobs id o.job, cache := o.cache }
  | SysOp.statusQuery _ => s
  | SysOp.downloadQuery _ _ => s
  | SysOp.listJobsQuery => s
  | SysOp.cacheStatusQuery => s

theorem dictGet_dictSet_self {α : Type} (l : List (String × α)) (k : String) (v : α) :
    dictGet (dictSet l k v) k = some v := by
  induction l with
  | nil => simp [dictGet, dictSet]
  | cons hd tl ih =>
    obtain ⟨k', v'⟩ := hd
    by_cases h : k' = k <;> simp [dictGet, dictSet, h, ih]

theorem mem_dictKeys_dictSet {α : Type} (l : List (String × α)) (k a : String) (v : α)
    (h : a ∈ dictKeys l) : a ∈ dictKeys (dictSet l k v) := by
  induction l with
  | nil => simp [dictKeys] at h
  | cons hd tl ih =>
    obtain ⟨k', v'⟩ := hd
    by_cases hk : k' = k
    · simpa [dictKeys, dictSet, hk] using h
    · simp only [dictKeys, dictSet, hk, if_false, List.map_cons, List.mem_cons]
      rcases (by simpa [dictKeys] using h) with h' | h'
      · exact Or.inl h'
      · exact Or.inr (ih (by simpa [dictKeys] using h'))

theorem dictGet_eq_none_of_not_mem {α : Type} (l : List (String × α)) (k : String)
    (h : k ∉ dictKeys l) : dictGet l k = none := by
  induction l with
  | nil => rfl
  | cons hd tl ih =>
    obtain ⟨k', v'⟩ := hd
    simp only [dictKeys, List.map_cons, List.mem_cons] at h
    push_neg at h
    have h1 : ¬ k' = k := fun hh => h.1 hh.symm
    simp [dictGet, h1, ih (by simpa [dictKeys] using h.2)]

theorem dictGet_dictErase_self {α : Type} (l : List (String × α)) (k : String)
    (hnd : (dictKeys l).Nodup) : dictGet (dictErase l k) k = none := by
  induction l with
  | nil => rfl
  | cons hd tl ih =>
    obtain ⟨k', v'⟩ := hd
    simp only [dictKeys, List.map_cons, List.nodup_cons] at hnd
    by_cases h : k' = k
    · subst h
      have hrest := dictGet_eq_none_of_not_mem tl k' (by simpa [dictKeys] using hnd.1)
      simpa [dictErase] using hrest
    · simp [dictErase, dictGet, h, ih (by simpa [dictKeys] using hnd.2)]

theorem removeDoomed_length (c1 : CacheStore) (n : Nat) :
    (c1.filter
      (fun p => !((((List.insertionSort byLastUsed c1).take n).map Prod.fst).contains p.1))).length
      ≤ c1.length - n := by
  set keep : String × CacheEntry → Bool :=
    fun p => !((((List.insertionSort byLastUsed c1).take n).map Prod.fst).contains p.1) with hkeep
  have hperm : (List.insertionSort byLastUsed c1).Perm c1 :=
    List.perm_insertionSort byLastUsed c1
  have hlen : (List.insertionSort byLastUsed c1).length = c1.length := hperm.length_eq
  have hfilter : (c1.filter keep).length = ((List.insertionSort byLastUsed c1).filter keep).length :=
    ((hperm.filter keep).length_eq).symm
  have hsplit : List.insertionSort byLastUsed c1 =
      (List.insertionSort byLastUsed c1).take n ++ (List.insertionSort byLastUsed c1).drop n :=
    (List.take_append_drop n _).symm
  have htake : ((List.insertionSort byLastUsed c1).take n).filter keep = [] := by
    refine List.filter_eq_nil_iff.mpr ?_
    intro p hp
    have hmem : p.1 ∈ (((List.insertionSort byLastUsed c1).take n).map Prod.fst) :=
      List.mem_map_of_mem Prod.fst hp
    have hcont : ((((List.insertionSort byLastUsed c1).take n).map Prod.fst).contains p.1) = true :=
      List.elem_eq_true_of_mem hmem
    intro hcontr
    simp only [hkeep] at hcontr
    rw [hcont] at hcontr
    simp at hcontr
  calc (c1.filter keep).length
      = ((List.insertionSort byLastUsed c1).filter keep).length := hfilter
    _ = (((List.insertionSort byLastUsed c1).take n).filter keep).length +
        (((List.insertionSort byLastUsed c1).drop n).filter keep).length := by
        conv_lhs => rw [hsplit]
        rw [List.filter_append, List.length_append]
    _ = (((List.insertionSort byLastUsed c1).drop n).filter keep).length := by
        rw [htake]; simp
    _ ≤ ((List.insertionSort byLastUsed c1).drop n).length :=
        List.length_filter_le keep _
    _ = c1.length - n := by rw [List.length_drop, hlen]

theorem cleanup_cache_length_le (now : Nat) (c : CacheStore) :
    (cleanup_cache now c).length ≤ MAX_CACHE_SIZE := by
  unfold cleanup_cache
  by_cases h1 : c.length ≤ MAX_CACHE_SIZE
  · simp [h1]
  · simp only [h1, if_false]
    set c1 := c.filter (fun p => !isExpired now p.2) with hc1
    by_cases h2 : c1.length ≤ MAX_CACHE_SIZE
    · simp [h2]
    · simp only [h2, if_false]
      have hb := removeDoomed_length c1 (c1.length - MAX_CACHE_SIZE)
      have : c1.length - (c1.length - MAX_CACHE_SIZE) = MAX_CACHE_SIZE := by omega
      omega

theorem cleanup_cache_noop (now : Nat) (c : CacheStore)
    (h : c.length ≤ MAX_CACHE_SIZE) : cleanup_cache now c = c := by
  unfold cleanup_cache
  simp [h]

theorem cache_insert_length_le (now : Nat) (url file : String) (c : CacheStore) :
    (cache_insert now url file c).length ≤ MAX_CACHE_SIZE :=
  cleanup_cache_length_le now _

/-- Scenario D history: 51 preview fetches of distinct sources inserted at
strictly increasing times (none expired), each insertion running
`cleanup_cache` as in `main.py` lines 654-662. -/
def cacheD : CacheStore :=
  (List.range 51).foldl
    (fun c i => cache_insert (100 + i) ("u" ++ toString i) "f.wav" c) []

/-- The cache contents just after the 51st insertion, before its
`cleanup_cache` pass: all 51 entries in insertion order. -/
def cacheD_full : CacheStore :=
  (List.range 51).map (fun i =>
    ("u" ++ toString i, ({ audio_file := "f.wav", last_used := 100 + i } : CacheEntry)))

/-- A 60-entry cache in which the 20 oldest entries are expired at time
86500 (the rest are fresh), exercising the expiry phase of
`cleanup_cache` on its own. -/
def cacheE : CacheStore :=
  (List.range 60).map (fun i =>
    ("u" ++ toString i,
      ({ audio_file := "f.wav", last_used := if i < 20 then 0 else 100 + i } : CacheEntry)))

set_option maxRecDepth 10000 in
/-- C2: `cleanup_cache` (triggered after every insertion) never leaves
more than `MAX_CACHE_SIZE` live entries, is the identity at or below
capacity, removes every expired entry before any LRU trimming (dropping
the count below capacity when many entries are stale), and — Scenario D —
51 fresh insertions evict exactly the single least-recently-used entry,
leaving the other 50 in order. -/
theorem C2_eviction_policy :
    (∀ now (c : CacheStore), (cleanup_cache now c).length ≤ MAX_CACHE_SIZE) ∧
    (∀ now url file (c : CacheStore),
      (cache_insert now url file c).length ≤ MAX_CACHE_SIZE) ∧
    (∀ now (c : CacheStore), c.length ≤ MAX_CACHE_SIZE → cleanup_cache now c = c) ∧
    (cacheD = cacheD_full.drop 1 ∧ cacheD_full.length = 51 ∧
      cacheD.length = MAX_CACHE_SIZE ∧
      (∀ p ∈ cacheD_full, isExpired 151 p.2 = false) ∧
      cacheD_full.head? = some ("u0", { audio_file := "f.wav", last_used := 100 }) ∧
      (∀ p ∈ cacheD, 100 < p.2.last_used)) ∧
    (cleanup_cache 86500 cacheE = cacheE.filter (fun p => !isExpired 86500 p.2) ∧
      (cleanup_cache 86500 cacheE).length = 40) := by
  refine ⟨cleanup_cache_length_le, cache_insert_length_le, cleanup_cache_noop, ?_, ?_⟩
  · decide
  · decide

/-- Witness for the hypothesis-bearing conjunct of `C2_eviction_policy`:
the no-op clause applied to the empty cache. -/
theorem C2_eviction_policy_witness : cleanup_cache 0 [] = [] :=
  C2_eviction_policy.2.2.1 0 [] (by decide)

/-- C1 counterexample: an entry whose age (25h = 90000s) exceeds the 24h
TTL but whose file still exists is returned as a cache hit by the lookup
block, and the entry stays in the store (with `last_used` refreshed)
instead of being returned absent and removed as the claim states. -/
theorem C1_counterexample :
    isExpired 90000 { audio_file := "f.wav", last_used := 0 } = true ∧
    (cache_lookup 90000 (fun _ => true) "u"
      [("u", { audio_file := "f.wav", last_used := 0 })]).1 = some "f.wav" ∧
    dictGet (cache_lookup 90000 (fun _ => true) "u"
      [("u", { audio_file := "f.wav", last_used := 0 })]).2 "u" =
      some { audio_file := "f.wav", last_used := 90000 } := by
  decide

/-- C1 (amended): the lookup block never consults the TTL.  Any cached
entry whose file still exists — even one whose age exceeds
`CACHE_EXPIRATION` — is returned as a hit and retained with `last_used`
refreshed to now; entries are removed at lookup time only when their file
is missing, and expired entries are removed only by `cleanup_cache`
(see `C2_eviction_policy`), which an over-capacity insertion triggers. -/
theorem C1_lookup_ignores_ttl (now : Nat) (fe : String → Bool) (url : String)
    (c : CacheStore) (info : CacheEntry)
    (hmem : dictGet c url = some info)
    (hfile : fe info.audio_file = true)
    (_hexp : isExpired now info = true) :
    (cache_lookup now fe url c).1 = some info.audio_file ∧
    dictGet (cache_lookup now fe url c).2 url =
      some { audio_file := info.audio_file, last_used := now } := by
  unfold cache_lookup
  rw [hmem]
  simp only [hfile, if_true]
  refine ⟨by simp, ?_⟩
  exact dictGet_dictSet_self c url _

/-- Witness for `C1_lookup_ignores_ttl` at a concrete expired entry. -/
theorem C1_lookup_ignores_ttl_witness :
    (cache_lookup 90000 (fun _ => true) "u2"
      [("u2", { audio_file := "g.wav", last_used := 100 })]).1 = some "g.wav" ∧
    dictGet (cache_lookup 90000 (fun _ => true) "u2"
      [("u2", { audio_file := "g.wav", last_used := 100 })]).2 "u2" =
      some { audio_file := "g.wav", last_used := 90000 } :=
  C1_lookup_ignores_ttl 90000 (fun _ => true) "u2"
    [("u2", { audio_file := "g.wav", last_used := 100 })]
    { audio_file := "g.wav", last_used := 100 } (by decide) (by decide) (by decide)

/-- C7: a lookup of a key whose referenced file has been deleted returns
absent and purges the entry (the key is gone afterwards, keys being
unique in a Python dict), and no lookup ever returns a dangling artifact:
a hit's file always exists. -/
theorem C7_lookup_purges_dangling :
    (∀ now fe url (c : CacheStore) info,
      dictGet c url = some info → fe info.audio_file = false →
      cache_lookup now fe url c = (none, dictErase c url)) ∧
    (∀ now fe url (c : CacheStore),
      (dictKeys c).Nodup →
      ∀ info, dictGet c url = some info → fe info.audio_file = false →
      dictGet (cache_lookup now fe url c).2 url = none) ∧
    (∀ now fe url (c : CacheStore) f c2,
      cache_lookup now fe url c = (some f, c2) → fe f = true) := by
  refine ⟨?_, ?_, ?_⟩
  · intro now fe url c info hget hfe
    unfold cache_lookup
    rw [hget]
    simp [hfe]
  · intro now fe url c hnd info hget hfe
    have h1 : cache_lookup now fe url c = (none, dictErase c url) := by
      unfold cache_lookup
      rw [hget]
      simp [hfe]
    rw [h1]
    exact dictGet_dictErase_self c url hnd
  · intro now fe url c f c2 h
    unfold cache_lookup at h
    cases hget : dictGet c url with
    | none => rw [hget] at h; simp at h
    | some info =>
      rw [hget] at h
      by_cases hfe : fe info.audio_file
      · simp only [hfe, if_true] at h
        have : f = info.audio_file := by
          have := congrArg Prod.fst h
          simpa using this.symm
        rw [this]
        exact hfe
      · simp [hfe] at h

/-- Witness for `C7_lookup_purges_dangling` at a concrete dangling entry. -/
theorem C7_lookup_purges_dangling_witness :
    dictGet (cache_lookup 500 (fun _ => false) "u"
      [("u", { audio_file := "gone.wav", last_used := 400 })]).2 "u" = none :=
  C7_lookup_purges_dangling.2.1 500 (fun _ => false) "u"
    [("u", { audio_file := "gone.wav", last_used := 400 })] (by decide)
    { audio_file := "gone.wav", last_used := 400 } (by decide) (by decide)

theorem preview_publish_used_cache (env : PreviewEnv) (job_id : String)
    (c : CacheStore) (j : JobRecord) (tr : List ℚ) (f : Nat) :
    (preview_publish env job_id c j tr f).job.used_cache = j.used_cache := by
  unfold preview_publish
  cases env.transform_err with
  | some m => rfl
  | none =>
    cases env.copy_err with
    | some m => rfl
    | none => rfl

theorem preview_publish_fetch_calls (env : PreviewEnv) (job_id : String)
    (c : CacheStore) (j : JobRecord) (tr : List ℚ) (f : Nat) :
    (preview_publish env job_id c j tr f).fetch_calls = f := by
  unfold preview_publish
  cases env.transform_err with
  | some m => rfl
  | none =>
    cases env.copy_err with
    | some m => rfl
    | none => rfl

theorem preview_publish_cache (env : PreviewEnv) (job_id : String)
    (c : CacheStore) (j : JobRecord) (tr : List ℚ) (f : Nat) :
    (preview_publish env job_id c j tr f).cache = c := by
  unfold preview_publish
  cases env.transform_err with
  | some m => rfl
  | none =>
    cases env.copy_err with
    | some m => rfl
    | none => rfl

theorem process_video_task_used_cache (env : ProcessEnv)
    (st et : Option String) (lv : Bool) (id : String) :
    (process_video_task env st et lv id).job.used_cache = false := by
  unfold process_video_task
  cases env.workspace_err with
  | some m => rfl
  | none =>
    rcases h : stage_acquire env id with ⟨fb, r⟩
    simp only [h]
    cases r with
    | error m => rfl
    | ok a =>
      cases env.transform_err with
      | some m => rfl
      | none =>
        rcases hf : stage_finalize env lv st et id with ⟨vd, cb, rr⟩
        simp only [hf]
        cases rr with
        | error m => rfl
        | ok name => rfl

/-- Environment of Scenario A: every external step succeeds and every
file exists. -/
def envA : PreviewEnv :=
  { workspace_err := none, now := 100, file_exists := fun _ => true,
    dl_err := none, audio_exists := true, wav_files := [],
    transform_err := none, copy_err := none }

/-- Scenario A, first preview job for source "urlX" on an empty cache. -/
def runA1 : PrevOut := process_preview_task envA "urlX" "job1" []

/-- Scenario A, second preview job for the same source 100s later
(well inside the TTL), on the cache left by the first run. -/
def runA2 : PrevOut :=
  process_preview_task { envA with now := 200 } "urlX" "job2" runA1.cache

/-- C5: only the preview pipeline touches the cache.  A process-task step
leaves the cache untouched and its job never reports `used_cache`; a
preview job whose key is cached with a live file sets `used_cache` and
performs no fetch; a preview job that misses and downloads successfully
ends with exactly the insert-then-cleanup cache; and Scenario A holds:
a first run misses (`used_cache = false`, one fetch), a second run for
the same source hits (`used_cache = true`, no fetch). -/
theorem C5_cache_only_preview :
    (∀ s id env st et lv,
      (sysStep s (SysOp.runProcessTask id env st et lv)).cache = s.cache) ∧
    (∀ env st et lv id,
      (process_video_task env st et lv id).job.used_cache = false) ∧
    (∀ env url id (c : CacheStore) info, env.workspace_err = none →
      dictGet c url = some info → env.file_exists info.audio_file = true →
      (process_preview_task env url id c).job.used_cache = true ∧
      (process_preview_task env url id c).fetch_calls = 0) ∧
    (∀ env url id (c : CacheStore), env.workspace_err = none →
      dictGet c url = none → env.dl_err = none → env.audio_exists = true →
      (process_preview_task env url id c).cache =
        cache_insert env.now url (preview_audio_filename id) c ∧
      (process_preview_task env url id c).fetch_calls = 1) ∧
    (runA1.job.used_cache = false ∧ runA1.job.status = "completed" ∧
      runA1.fetch_calls = 1 ∧ runA2.job.used_cache = true ∧
      runA2.fetch_calls = 0 ∧ runA2.job.status = "completed") := by
  refine ⟨fun s id env st et lv => rfl, process_video_task_used_cache, ?_, ?_, by decide⟩
  · intro env url id c info hw hget hfe
    have hlk : cache_lookup env.now env.file_exists url c =
        (some info.audio_file, dictSet c url { info with last_used := env.now }) := by
      unfold cache_lookup
      rw [hget]
      simp [hfe]
    unfold process_preview_task
    rw [hw]
    rw [hlk]
    exact ⟨by rw [preview_publish_used_cache], by rw [preview_publish_fetch_calls]⟩
  · intro env url id c hw hget hdl haudio
    have hlk : cache_lookup env.now env.file_exists url c = (none, c) := by
      unfold cache_lookup
      rw [hget]
    unfold process_preview_task
    rw [hw]
    rw [hlk]
    rw [hdl]
    simp only [haudio, if_true]
    exact ⟨by rw [preview_publish_cache], by rw [preview_publish_fetch_calls]⟩

/-- Witness for the hypothesis-bearing conjuncts of
`C5_cache_only_preview`: a concrete cache hit reports `used_cache` with
no fetch. -/
theorem C5_cache_only_preview_witness :
    (process_preview_task envA "urlY" "job9"
      [("urlY", { audio_file := "y.wav", last_used := 50 })]).job.used_cache = true ∧
    (process_preview_task envA "urlY" "job9"
      [("urlY", { audio_file := "y.wav", last_used := 50 })]).fetch_calls = 0 :=
  C5_cache_only_preview.2.2.1 envA "urlY" "job9"
    [("urlY", { audio_file := "y.wav", last_used := 50 })]
    { audio_file := "y.wav", last_used := 50 } rfl (by decide) (by decide)

/-- Environment of the C4 counterexample: a preview run whose single
`yt-dlp` invocation exits nonzero. -/
def envC4 : PreviewEnv :=
  { workspace_err := none, now := 100, file_exists := fun _ => true,
    dl_err := some "HTTP Error 403", audio_exists := false, wav_files := [],
    transform_err := none, copy_err := none }

/-- The C4 counterexample run: a preview cache miss with a failing
primary fetch. -/
def runC4 : PrevOut := process_preview_task envC4 "urlZ" "jobZ" []

/-- C4 counterexample: on a preview cache miss whose primary fetch fails,
the run performs no fallback invocation at all (`fallback_calls = 0`,
not the claimed exactly one) and fails immediately; only the no-cache-entry
part of the claim survives. -/
theorem C4_counterexample :
    runC4.fetch_calls = 1 ∧ ¬ runC4.fallback_calls = 1 ∧
    runC4.fallback_calls = 0 ∧ runC4.job.status = "failed" ∧
    runC4.cache = [] := by
  decide

theorem stage_acquire_fallback_calls (env : ProcessEnv) (id : String)
    (hp : env.primary_ok = false) : (stage_acquire env id).1 = 1 := by
  unfold stage_acquire
  simp only [hp, Bool.false_eq_true, if_false]
  cases env.fallback_err with
  | some m => rfl
  | none =>
    cases haud : env.audio_exists with
    | true => simp [haud]
    | false =>
      simp only [haud, Bool.false_eq_true, if_false]
      cases env.wav_files with
      | nil => rfl
      | cons w ws => rfl

theorem process_video_task_fallback_calls (env : ProcessEnv)
    (st et : Option String) (lv : Bool) (id : String)
    (hw : env.workspace_err = none) :
    (process_video_task env st et lv id).fallback_calls = (stage_acquire env id).1 := by
  unfold process_video_task
  rw [hw]
  rcases h : stage_acquire env id with ⟨fb, r⟩
  simp only [h]
  cases r with
  | error m => rfl
  | ok a =>
    cases env.transform_err with
    | some m => rfl
    | none =>
      rcases hf : stage_finalize env lv st et id with ⟨vd, cb, rr⟩
      simp only [hf]
      cases rr with
      | error m => rfl
      | ok name => rfl

/-- C4 (amended): the one-shot fetch fallback exists only in the full
process pipeline: there, a failing primary invocation is followed by
exactly one `download_audio` fallback call, and if that also raises the
job is `Failed` with a descriptive download error and no result (the
process pipeline never writes cache entries, see `C5_cache_only_preview`).
The preview pipeline attempts no fallback: a failing primary fetch on a
cache miss fails the job at once with a descriptive download error, and
no cache entry is created for that source key. -/
theorem C4_fetch_fallback_policy :
    (∀ env st et lv id, env.workspace_err = none → env.primary_ok = false →
      (process_video_task env st et lv id).fallback_calls = 1) ∧
    (∀ env st et lv id m, env.workspace_err = none → env.primary_ok = false →
      env.fallback_err = some m →
      (process_video_task env st et lv id).job.status = "failed" ∧
      (process_video_task env st et lv id).job.error =
        some ("Error downloading audio: " ++ m) ∧
      (process_video_task env st et lv id).job.result_file = none ∧
      (process_video_task env st et lv id).fallback_calls = 1) ∧
    (∀ env url id (c : CacheStore) m, env.workspace_err = none →
      dictGet c url = none → env.dl_err = some m →
      (process_preview_task env url id c).fallback_calls = 0 ∧
      (process_preview_task env url id c).fetch_calls = 1 ∧
      (process_preview_task env url id c).job.status = "failed" ∧
      (process_preview_task env url id c).job.error =
        some ("Error downloading preview audio: Error downloading preview audio: " ++ m) ∧
      dictGet (process_preview_task env url id c).cache url = none) := by
  refine ⟨?_, ?_, ?_⟩
  · intro env st et lv id hw hp
    rw [process_video_task_fallback_calls env st et lv id hw]
    exact stage_acquire_fallback_calls env id hp
  · intro env st et lv id m hw hp hfb
    have hacq : stage_acquire env id = (1, Except.error m) := by
      unfold stage_acquire
      simp [hp, hfb]
    unfold process_video_task
    rw [hw]
    rw [hacq]
    exact ⟨rfl, rfl, rfl, rfl⟩
  · intro env url id c m hw hget hdl
    have hlk : cache_lookup env.now env.file_exists url c = (none, c) := by
      unfold cache_lookup
      rw [hget]
    unfold process_preview_task
    rw [hw]
    rw [hlk]
    rw [hdl]
    exact ⟨rfl, rfl, rfl, rfl, hget⟩

/-- Witness for `C4_fetch_fallback_policy`: a concrete process run whose
primary and fallback fetches both fail. -/
theorem C4_fetch_fallback_policy_witness :
    (process_video_task
      { workspace_err := none, primary_ok := false, fallback_err := some "no formats",
        audio_exists := false, wav_files := [], transform_err := none,
        video_err := none, combine_err := none, combined_exists := true,
        combined_mp4_exists := false, matching_files := [], copy_err := none }
      none none false "jobF").job.status = "failed" ∧
    (process_video_task
      { workspace_err := none, primary_ok := false, fallback_err := some "no formats",
        audio_exists := false, wav_files := [], transform_err := none,
        video_err := none, combine_err := none, combined_exists := true,
        combined_mp4_exists := false, matching_files := [], copy_err := none }
      none none false "jobF").job.error =
      some ("Error downloading audio: " ++ "no formats") ∧
    (process_video_task
      { workspace_err := none, primary_ok := false, fallback_err := some "no formats",
        audio_exists := false, wav_files := [], transform_err := none,
        video_err := none, combine_err := none, combined_exists := true,
        combined_mp4_exists := false, matching_files := [], copy_err := none }
      none none false "jobF").job.result_file = none ∧
    (process_video_task
      { workspace_err := none, primary_ok := false, fallback_err := some "no formats",
        audio_exists := false, wav_files := [], transform_err := none,
        video_err := none, combine_err := none, combined_exists := true,
        combined_mp4_exists := false, matching_files := [], copy_err := none }
      none none false "jobF").fallback_calls = 1 :=
  C4_fetch_fallback_policy.2.1
    { workspace_err := none, primary_ok := false, fallback_err := some "no formats",
      audio_exists := false, wav_files := [], transform_err := none,
      video_err := none, combine_err := none, combined_exists := true,
      combined_mp4_exists := false, matching_files := [], copy_err := none }
    none none false "jobF" "no formats" rfl rfl rfl

/-- C3: whenever a looped-video process job reaches the combine step and
`combine_audio_video` raises, the job still finishes `completed` with
progress 1.0 and an audio-only result (`{job_id}.mp3`), the combiner
having been invoked exactly once. -/
theorem C3_combiner_failure_degrades (env : ProcessEnv) (st et : Option String)
    (id f m : String)
    (hw : env.workspace_err = none)
    (ha : (stage_acquire env id).2 = Except.ok f)
    (ht : env.transform_err = none)
    (hst : truthy st = true) (het : truthy et = true)
    (hv : env.video_err = none)
    (hc : env.combine_err = some m)
    (hcp : env.copy_err = none) :
    (process_video_task env st et true id).job.status = "completed" ∧
    (process_video_task env st et true id).job.progress = 1 ∧
    (process_video_task env st et true id).job.result_file = some (id ++ ".mp3") ∧
    (process_video_task env st et true id).combine_calls = 1 ∧
    (process_video_task env st et true id).videodl_calls = 1 := by
  have hfin : stage_finalize env true st et id = (1, 1, Except.ok (id ++ ".mp3")) := by
    unfold stage_finalize
    simp [hst, het, hv, hc, hcp]
  unfold process_video_task
  rw [hw]
  rcases hacq : stage_acquire env id with ⟨fb, r⟩
  rw [hacq] at ha
  simp only at ha
  subst ha
  simp only [hacq]
  rw [ht]
  rw [hfin]
  exact ⟨rfl, rfl, rfl, rfl, rfl⟩

/-- Environment of the C3 witness: everything succeeds except the
combiner, which raises. -/
def envC3 : ProcessEnv :=
  { workspace_err := none, primary_ok := true, fallback_err := none,
    audio_exists := true, wav_files := [], transform_err := none,
    video_err := none, combine_err := some "ffmpeg exited 1",
    combined_exists := false, combined_mp4_exists := false,
    matching_files := [], copy_err := none }

/-- Witness for `C3_combiner_failure_degrades` at a concrete looped-video
job with a failing combiner. -/
theorem C3_combiner_failure_degrades_witness :
    (process_video_task envC3 (some "0:10") (some "0:35") true "jobB").job.status = "completed" ∧
    (process_video_task envC3 (some "0:10") (some "0:35") true "jobB").job.progress = 1 ∧
    (process_video_task envC3 (some "0:10") (some "0:35") true "jobB").job.result_file =
      some ("jobB" ++ ".mp3") ∧
    (process_video_task envC3 (some "0:10") (some "0:35") true "jobB").combine_calls = 1 ∧
    (process_video_task envC3 (some "0:10") (some "0:35") true "jobB").videodl_calls = 1 :=
  C3_combiner_failure_degrades envC3 (some "0:10") (some "0:35") "jobB"
    (process_audio_filename "jobB") "ffmpeg exited 1"
    rfl rfl rfl (by decide) (by decide) rfl rfl rfl

theorem stage_finalize_no_video (env : ProcessEnv) (lv : Bool)
    (st et : Option String) (id : String)
    (hcond : (lv && truthy st && truthy et) = false) :
    stage_finalize env lv st et id =
      match env.copy_err with
      | some m => (0, 0, Except.error m)
      | none => (0, 0, Except.ok (id ++ ".mp3")) := by
  unfold stage_finalize
  simp only [hcond, Bool.false_eq_true, if_false]

theorem process_video_task_no_video (env : ProcessEnv) (st et : Option String)
    (lv : Bool) (id : String)
    (hcond : (lv && truthy st && truthy et) = false) :
    (process_video_task env st et lv id).videodl_calls = 0 ∧
    (process_video_task env st et lv id).combine_calls = 0 ∧
    ((process_video_task env st et lv id).job.status = "completed" →
      (process_video_task env st et lv id).job.result_file = some (id ++ ".mp3")) := by
  unfold process_video_task
  cases hwc : env.workspace_err with
  | some m =>
    refine ⟨rfl, rfl, fun h => ?_⟩
    simp [failJob, processingJob] at h
  | none =>
    rcases hacq : stage_acquire env id with ⟨fb, r⟩
    simp only [hacq]
    cases r with
    | error m =>
      refine ⟨rfl, rfl, fun h => ?_⟩
      simp [failJob, processingJob] at h
    | ok a =>
      cases htr : env.transform_err with
      | some m =>
        refine ⟨rfl, rfl, fun h => ?_⟩
        simp [failJob, processingJob] at h
      | none =>
        have hfin := stage_finalize_no_video env lv st et id hcond
        cases hcp : env.copy_err with
        | some m =>
          simp only [hcp] at hfin
          rw [hfin]
          refine ⟨rfl, rfl, fun h => ?_⟩
          simp [failJob, processingJob] at h
        | none =>
          simp only [hcp] at hfin
          rw [hfin]
          exact ⟨rfl, rfl, fun _ => rfl⟩

/-- C10: a process job with `loop_video = true` but `start_time` or
`end_time` absent downloads no video and never invokes the combiner,
publishing the transformed audio `{job_id}.mp3` when it completes; and
conversely the combiner can only ever be invoked when `loop_video` is
set and both bounds are present (non-`None`). -/
theorem C10_video_requires_full_range :
    (∀ env st et id, (st = none ∨ et = none) →
      (process_video_task env st et true id).videodl_calls = 0 ∧
      (process_video_task env st et true id).combine_calls = 0 ∧
      ((process_video_task env st et true id).job.status = "completed" →
        (process_video_task env st et true id).job.result_file = some (id ++ ".mp3"))) ∧
    (∀ env st et lv id, (process_video_task env st et lv id).combine_calls ≠ 0 →
      lv = true ∧ st ≠ none ∧ et ≠ none) := by
  constructor
  · intro env st et id h
    refine process_video_task_no_video env st et true id ?_
    rcases h with h | h <;> subst h <;> simp [truthy]
  · intro env st et lv id h
    by_cases hcond : (lv && truthy st && truthy et) = true
    · have h1 : lv = true := by
        rcases Bool.and_eq_true_iff.mp hcond with ⟨h12, _⟩
        exact (Bool.and_eq_true_iff.mp h12).1
      have h2 : truthy st = true := by
        rcases Bool.and_eq_true_iff.mp hcond with ⟨h12, _⟩
        exact (Bool.and_eq_true_iff.mp h12).2
      have h3 : truthy et = true := (Bool.and_eq_true_iff.mp hcond).2
      refine ⟨h1, ?_, ?_⟩
      · intro hn; rw [hn] at h2; simp [truthy] at h2
      · intro hn; rw [hn] at h3; simp [truthy] at h3
    · exact absurd (process_video_task_no_video env st et lv id
        (Bool.not_eq_true _ ▸ Bool.eq_false_iff.mpr (fun hh => hcond hh))).2.1 h

/-- Witness for the hypothesis-bearing parts of
`C10_video_requires_full_range`: a looped-video request missing its end
time completes audio-only with no combiner call. -/
theorem C10_video_requires_full_range_witness :
    (process_video_task envC3 (some "0:10") none true "jobC").videodl_calls = 0 ∧
    (process_video_task envC3 (some "0:10") none true "jobC").combine_calls = 0 ∧
    ((process_video_task envC3 (some "0:10") none true "jobC").job.status = "completed" →
      (process_video_task envC3 (some "0:10") none true "jobC").job.result_file =
        some ("jobC" ++ ".mp3")) :=
  C10_video_requires_full_range.1 envC3 (some "0:10") none "jobC" (Or.inr rfl)

/-- Monotone non-decrease of a list of progress values. -/
def nondecr : List ℚ → Bool
  | [] => true
  | a :: t =>
    match t with
    | [] => true
    | b :: _ => decide (a ≤ b) && nondecr t

/-- C6: for every run of either task, the sequence of progress values
written over the job's lifetime is non-decreasing and stays within
[0, 1]; the final record has progress 1.0 exactly when its state is
`completed`; and a `failed` record's progress equals the last value
written before the failure. -/
theorem C6_progress_monotone :
    (∀ env st et lv id,
      nondecr (process_video_task env st et lv id).trace = true ∧
      (∀ p ∈ (process_video_task env st et lv id).trace, 0 ≤ p ∧ p ≤ 1) ∧
      ((process_video_task env st et lv id).job.status = "completed" ↔
        (process_video_task env st et lv id).job.progress = 1) ∧
      ((process_video_task env st et lv id).job.status = "failed" →
        (process_video_task env st et lv id).trace.getLast? =
          some (process_video_task env st et lv id).job.progress)) ∧
    (∀ env url id (c : CacheStore),
      nondecr (process_preview_task env url id c).trace = true ∧
      (∀ p ∈ (process_preview_task env url id c).trace, 0 ≤ p ∧ p ≤ 1) ∧
      ((process_preview_task env url id c).job.status = "completed" ↔
        (process_preview_task env url id c).job.progress = 1) ∧
      ((process_preview_task env url id c).job.status = "failed" →
        (process_preview_task env url id c).trace.getLast? =
          some (process_preview_task env url id c).job.progress)) := by
  constructor
  · intro env st et lv id
    unfold process_video_task
    cases hwc : env.workspace_err with
    | some m => dsimp only [failJob, processingJob]; decide
    | none =>
      rcases hacq : stage_acquire env id with ⟨fb, r⟩
      simp only [hacq]
      cases r with
      | error m => dsimp only [failJob, processingJob]; decide
      | ok a =>
        cases htr : env.transform_err with
        | some m => dsimp only [failJob, processingJob]; decide
        | none =>
          rcases hf : stage_finalize env lv st et id with ⟨vd, cb, rr⟩
          simp only [hf]
          cases rr with
          | error m => dsimp only [failJob, processingJob]; decide
          | ok name => dsimp only [failJob, processingJob]; decide
  · intro env url id c
    unfold process_preview_task
    cases hwc : env.workspace_err with
    | some m => dsimp only [failJob, processingJob]; decide
    | none =>
      rcases hlk : cache_lookup env.now env.file_exists url c with ⟨hit, c1⟩
      simp only [hlk]
      cases hit with
      | some f =>
        unfold preview_publish
        cases htr : env.transform_err with
        | some m => dsimp only [failJob, processingJob]; decide
        | none =>
          cases hcp : env.copy_err with
          | some m => dsimp only [failJob, processingJob]; decide
          | none => dsimp only [failJob, processingJob]; decide
      | none =>
        cases hdl : env.dl_err with
        | some stderr => dsimp only [failJob, processingJob]; decide
        | none =>
          cases haud : env.audio_exists with
          | true =>
            simp only [if_true]
            unfold preview_publish
            cases htr : env.transform_err with
            | some m => dsimp only [failJob, processingJob]; decide
            | none =>
              cases hcp : env.copy_err with
              | some m => dsimp only [failJob, processingJob]; decide
              | none => dsimp only [failJob, processingJob]; decide
          | false =>
            simp only [Bool.false_eq_true, if_false]
            cases hwav : env.wav_files with
            | nil => dsimp only [failJob, processingJob]; decide
            | cons w ws =>
              unfold preview_publish
              cases htr : env.transform_err with
              | some m => dsimp only [failJob, processingJob]; decide
              | none =>
                cases hcp : env.copy_err with
                | some m => dsimp only [failJob, processingJob]; decide
                | none => dsimp only [failJob, processingJob]; decide

/-- Witness for the implication-bearing parts of `C6_progress_monotone`
at a concrete environment. -/
theorem C6_progress_monotone_witness :
    nondecr (process_video_task envC3 (some "0:10") (some "0:35") true "jobW").trace = true :=
  (C6_progress_monotone.1 envC3 (some "0:10") (some "0:35") true "jobW").1

/-- C8: a status query for an unknown job id fails with 404 `NotFound`;
a download for an unknown id fails with 404; a download for an existing
but non-completed job fails with the 400 precondition error; and a
download can only succeed for an existing job in state `completed` (with
its recorded result file present on disk). -/
theorem C8_status_download_errors :
    (∀ jobs id, dictGet jobs id = none →
      get_job_status jobs id =
        Except.error { status_code := 404, detail := "Job not found" }) ∧
    (∀ jobs id fe, dictGet jobs id = none →
      download_result jobs id fe =
        Except.error { status_code := 404, detail := "Job not found" }) ∧
    (∀ jobs id fe job, dictGet jobs id = some job → job.status ≠ "completed" →
      download_result jobs id fe =
        Except.error { status_code := 400, detail := "Job not completed" }) ∧
    (∀ jobs id fe f, download_result jobs id fe = Except.ok f →
      ∃ job, dictGet jobs id = some job ∧ job.status = "completed" ∧
        job.result_file = some f ∧ fe f = true) := by
  refine ⟨?_, ?_, ?_, ?_⟩
  · intro jobs id h
    unfold get_job_status
    rw [h]
  · intro jobs id fe h
    unfold download_result
    rw [h]
  · intro jobs id fe job hget hs
    unfold download_result
    rw [hget]
    simp [hs]
  · intro jobs id fe f h
    unfold download_result at h
    cases hget : dictGet jobs id with
    | none => rw [hget] at h; simp at h
    | some job =>
      rw [hget] at h
      by_cases hs : job.status = "completed"
      · simp only [hs, ne_eq, not_true_eq_false, if_false] at h
        cases hrf : job.result_file with
        | none => rw [hrf] at h; simp at h
        | some g =>
          rw [hrf] at h
          by_cases hemp : g.isEmpty
          · simp [hemp] at h
          · simp only [hemp, Bool.false_eq_true, if_false] at h
            by_cases hfe : fe g = true
            · simp only [hfe, if_true] at h
              have hgf : g = f := by
                simpa using h
              subst hgf
              exact ⟨job, rfl, hs, hrf, hfe⟩
            · simp only [Bool.not_eq_true] at hfe
              rw [hfe] at h
              simp at h
      · simp [hs] at h

/-- Witness for `C8_status_download_errors`: downloading a concrete
queued job yields the 400 precondition error. -/
theorem C8_status_download_errors_witness :
    download_result [("j1", initial_job)] "j1" (fun _ => true) =
      Except.error { status_code := 400, detail := "Job not completed" } :=
  C8_status_download_errors.2.2.1 [("j1", initial_job)] "j1" (fun _ => true)
    initial_job (by decide) (by decide)

/-- C9: every submission (process or preview) creates its job record in
state `queued` with progress 0.0, and no operation of the system ever
removes a job id from the registry: the key set only grows. -/
theorem C9_registry_only_grows :
    (∀ (s : SysState) (op : SysOp) (k : String),
      k ∈ dictKeys s.jobs → k ∈ dictKeys (sysStep s op).jobs) ∧
    (∀ jobs id, dictGet (process_video jobs id) id = some initial_job) ∧
    (∀ jobs id, dictGet (preview_audio jobs id) id = some initial_job) ∧
    initial_job.status = "queued" ∧ initial_job.progress = 0 := by
  refine ⟨?_, ?_, ?_, rfl, rfl⟩
  · intro s op k hk
    cases op with
    | submitProcess id => exact mem_dictKeys_dictSet s.jobs id k initial_job hk
    | submitPreview id => exact mem_dictKeys_dictSet s.jobs id k initial_job hk
    | runProcessTask id env st et lv => exact mem_dictKeys_dictSet s.jobs id k _ hk
    | runPreviewTask id env url => exact mem_dictKeys_dictSet s.jobs id k _ hk
    | statusQuery id => exact hk
    | downloadQuery id fe => exact hk
    | listJobsQuery => exact hk
    | cacheStatusQuery => exact hk
  · intro jobs id
    exact dictGet_dictSet_self jobs id initial_job
  · intro jobs id
    exact dictGet_dictSet_self jobs id initial_job

/-- Witness for `C9_registry_only_grows`: an existing job id survives a
later submission step. -/
theorem C9_registry_only_grows_witness :
    "a" ∈ dictKeys (sysStep { jobs := [("a", initial_job)], cache := [] }
      (SysOp.submitProcess "b")).jobs :=
  C9_registry_only_grows.1 { jobs := [("a", initial_job)], cache := [] }
    (SysOp.submitProcess "b") "a" (by decide)
